import Mathlib

/-!
Verification of the query compiler of the elastic-ide-context repository.

The repository builds Elasticsearch request bodies (JSON documents) from
HTTP query parameters, in two Flask endpoints files:
`src/search_api.py` (endpoints `search`, `autocomplete`, `suggest`) and
`src/catalog_search.py` (endpoints `product_search`, `autocomplete`).

The embedding below mirrors those functions over a small JSON value type `J`.
An HTTP request's query string is modelled as the ordered list of its
`(key, value)` pairs (`Args`); the Werkzeug `MultiDict` accessors used by the
code (`get`, `get` with `type=`, `getlist`, `items`) are modelled by
`getFirst`, `getD`, `getParsedD`, `getlist` and `argsItems`.
-/

/-- JSON-like values, as built by the Python code with dict/list literals.
Python ints are `J.i`; Python floats are modelled as exact rationals `J.f`
(the code never computes with parsed floats, it only tests them for
presence and copies them into the body, so exact rationals are faithful on
every float-representable input). -/
inductive J where
  | s (x : String)
  | i (n : Int)
  | f (x : Rat)
  | b (x : Bool)
  | arr (xs : List J)
  | obj (fields : List (String × J))

/-- First binding of a key in a JSON object's field list. -/
def jFieldsLookup : List (String × J) → String → Option J
  | [], _ => none
  | (k, v) :: fs, key => if k = key then some v else jFieldsLookup fs key

/-- Field lookup in a JSON object (Python `d[k]` / `k in d` on dicts):
the first binding of the key, if any.  On non-objects: `none`. -/
def J.lookup : J → String → Option J
  | J.obj fs, key => jFieldsLookup fs key
  | _, _ => none

/-- A query string, as the ordered list of its `(key, value)` pairs. -/
abbrev Args : Type := List (String × String)

/-- First value of a key (`MultiDict.get(key)` semantics): Werkzeug keeps
all values of a repeated key but plain `get` returns the first. -/
def getFirst (args : Args) (key : String) : Option String :=
  match args with
  | [] => none
  | (k, v) :: rest => if k = key then some v else getFirst rest key

/-- Werkzeug `request.args.get(key, default)`: first value, or the default. -/
def getD (args : Args) (key default : String) : String :=
  (getFirst args key).getD default

/-- Werkzeug `request.args.get(key, type=f)`: first value pushed through the parser;
a missing key or a parse failure yields `none` (Werkzeug swallows the
conversion error and falls back to the default, here absent). -/
def getParsed (args : Args) (key : String) (parse : String → Option α) : Option α :=
  (getFirst args key).bind parse

/-- Werkzeug `request.args.get(key, default, type=f)`: first value pushed through the
parser; a missing key or a parse failure yields the default. -/
def getParsedD (args : Args) (key : String) (default : α) (parse : String → Option α) : α :=
  match getFirst args key with
  | none => default
  | some v => (parse v).getD default

/-- Werkzeug `request.args.getlist(key)`: every value of the key, in query order. -/
def getlist (args : Args) (key : String) : List String :=
  match args with
  | [] => []
  | (k, v) :: rest => if k = key then v :: getlist rest key else getlist rest key

/-- Werkzeug `request.args.items()` on a Werkzeug `MultiDict`: one pair per distinct
key, carrying that key's first value, keys in order of first occurrence.
(Structurally: keep the head, and drop the head's key from the rest.) -/
def argsItems : Args → List (String × String)
  | [] => []
  | p :: rest => p :: (argsItems rest).filter (fun q => decide (q.1 ≠ p.1))

/-- Python `str.strip()` (whitespace from both ends), over the char list. -/
def pyStrip (s : String) : String :=
  ⟨((s.data.dropWhile Char.isWhitespace).reverse.dropWhile Char.isWhitespace).reverse⟩

/-- Python `str.lower()` over the char list (ASCII case folding). -/
def pyLower (s : String) : String :=
  ⟨s.data.map Char.toLower⟩

/-- Value of a nonempty list of decimal digits. -/
def digitsVal (cs : List Char) : Nat :=
  cs.foldl (fun a c => a * 10 + (c.toNat - 48)) 0

/-- Python `int(str)`: optional surrounding whitespace, optional sign, then
decimal digits.  (Digit-group underscores, which Python also accepts, are
outside the modelled fragment.)  `none` models the `ValueError` that
Werkzeug's `type=int` turns into the default. -/
def pyParseInt? (s : String) : Option Int :=
  let core := (s.data.dropWhile Char.isWhitespace).reverse.dropWhile Char.isWhitespace |>.reverse
  match core with
  | '-' :: ds => if ds ≠ [] ∧ ds.all Char.isDigit then some (-(digitsVal ds : Int)) else none
  | '+' :: ds => if ds ≠ [] ∧ ds.all Char.isDigit then some (digitsVal ds : Int) else none
  | ds => if ds ≠ [] ∧ ds.all Char.isDigit then some (digitsVal ds : Int) else none

/-- The mantissa part of a Python float literal: digits, optionally a dot
with further digits, at least one digit in total.  Returns the value and
the remaining characters. -/
def parseMantissa? (cs : List Char) : Option (Rat × List Char) :=
  let ip := cs.takeWhile Char.isDigit
  let rest := cs.dropWhile Char.isDigit
  match rest with
  | '.' :: rest2 =>
    let fp := rest2.takeWhile Char.isDigit
    let rest3 := rest2.dropWhile Char.isDigit
    if ip = [] ∧ fp = [] then none
    else some ((digitsVal ip : Rat) + (digitsVal fp : Rat) / (10 : Rat) ^ fp.length, rest3)
  | _ =>
    if ip = [] then none else some ((digitsVal ip : Rat), rest)

/-- The exponent of a Python float literal: optional sign and digits. -/
def parseExponent? (cs : List Char) : Option Int :=
  match cs with
  | '-' :: ds => if ds ≠ [] ∧ ds.all Char.isDigit then some (-(digitsVal ds : Int)) else none
  | '+' :: ds => if ds ≠ [] ∧ ds.all Char.isDigit then some (digitsVal ds : Int) else none
  | ds => if ds ≠ [] ∧ ds.all Char.isDigit then some (digitsVal ds : Int) else none

/-- Python `float(str)` on ordinary numerals: optional whitespace and sign,
digits with optional fraction, optional decimal exponent.  (`inf`, `nan`
and underscore digit groups are outside the modelled fragment; the value is
kept exact as a rational, the double rounding being irrelevant here since
the code never computes with it.) -/
def pyParseFloat? (s : String) : Option Rat :=
  let core := (s.data.dropWhile Char.isWhitespace).reverse.dropWhile Char.isWhitespace |>.reverse
  let signed : (Rat → Rat) × List Char :=
    match core with
    | '-' :: rest => (fun x => -x, rest)
    | '+' :: rest => (fun x => x, rest)
    | rest => (fun x => x, rest)
  match parseMantissa? signed.2 with
  | none => none
  | some (m, rest) =>
    match rest with
    | [] => some (signed.1 m)
    | 'e' :: es => (parseExponent? es).map (fun e => signed.1 (m * (10 : Rat) ^ e))
    | 'E' :: es => (parseExponent? es).map (fun e => signed.1 (m * (10 : Rat) ^ e))
    | _ => none

namespace SearchApi

/-- Python `q = request.args.get("q", "").strip()` (src/search_api.py:59). -/
def qParam (args : Args) : String := pyStrip (getD args "q" "")

/-- Python `category_id = request.args.get("category_id", type=int)` (line 60). -/
def categoryId (args : Args) : Option Int := getParsed args "category_id" pyParseInt?

/-- Python `status = request.args.get("status")` (line 61). -/
def statusParam (args : Args) : Option String := getFirst args "status"

/-- Python `min_price = request.args.get("min_price", type=float)` (line 62). -/
def minPrice (args : Args) : Option Rat := getParsed args "min_price" pyParseFloat?

/-- Python `max_price = request.args.get("max_price", type=float)` (line 63). -/
def maxPrice (args : Args) : Option Rat := getParsed args "max_price" pyParseFloat?

/-- Python `in_stock = request.args.get("in_stock")` (line 64). -/
def inStock (args : Args) : Option String := getFirst args "in_stock"

/-- Python `sort_by = request.args.get("sort", "relevance")` (line 65). -/
def sortBy (args : Args) : String := getD args "sort" "relevance"

/-- Python `page = request.args.get("page", 1, type=int)` (line 66). -/
def page (args : Args) : Int := getParsedD args "page" 1 pyParseInt?

/-- Python `size = min(request.args.get("size", 20, type=int), 100)` (line 67). -/
def size (args : Args) : Int := min (getParsedD args "size" 20 pyParseInt?) 100

/-- The stock-availability predicate `{"range": {"stock_quantity": {"gt": 0}}}`
appended at line 80. -/
def stockFilter : J := J.obj [("range", J.obj [("stock_quantity", J.obj [("gt", J.i 0)])])]

/-- The nested attribute predicate appended at lines 86-98: name and value
must co-occur inside one `attributes` record. -/
def attrFilter (name value : String) : J :=
  J.obj [("nested", J.obj [
    ("path", J.s "attributes"),
    ("query", J.obj [("bool", J.obj [("must", J.arr [
      J.obj [("term", J.obj [("attributes.name", J.s name)])],
      J.obj [("term", J.obj [("attributes.value", J.s value)])]])])])])]

/-- Python `key.startswith("attr_")` (line 84), as a prefix test on the string. -/
def isAttrKey (k : String) : Bool := k.take 5 = "attr_"

/-- The loop of lines 83-98: one nested predicate per `attr_*` item of
`request.args.items()`, with `attr_name = key[5:]`. -/
def attrFilters (args : Args) : List J :=
  (argsItems args).filterMap (fun p =>
    if isAttrKey p.1 then some (attrFilter (p.1.drop 5) p.2) else none)

/-- Line 71-72: the category term predicate, when `category_id` parses. -/
def categoryFilters (args : Args) : List J :=
  match categoryId args with
  | some c => [J.obj [("term", J.obj [("category_id", J.i c)])]]
  | none => []

/-- Line 73-74: the status term predicate, when `status` is a nonempty
string (Python truthiness of `if status:`). -/
def statusFilters (args : Args) : List J :=
  match statusParam args with
  | some st => if st ≠ "" then [J.obj [("term", J.obj [("status", J.s st)])]] else []
  | none => []

/-- Line 75-76: the lower price bound, when `min_price` parses. -/
def minPriceFilters (args : Args) : List J :=
  match minPrice args with
  | some p => [J.obj [("range", J.obj [("price", J.obj [("gte", J.f p)])])]]
  | none => []

/-- Line 77-78: the upper price bound, when `max_price` parses. -/
def maxPriceFilters (args : Args) : List J :=
  match maxPrice args with
  | some p => [J.obj [("range", J.obj [("price", J.obj [("lte", J.f p)])])]]
  | none => []

/-- Line 79-80: the stock predicate, only when `in_stock == "true"`. -/
def stockFilters (args : Args) : List J :=
  if inStock args = some "true" then [stockFilter] else []

/-- The `filters` list of lines 70-98, in append order. -/
def filters (args : Args) : List J :=
  categoryFilters args ++ statusFilters args ++ minPriceFilters args
    ++ maxPriceFilters args ++ stockFilters args ++ attrFilters args

/-- The keyword clause of lines 106-113. -/
def multiMatchClause (q : String) : J :=
  J.obj [("multi_match", J.obj [
    ("query", J.s q),
    ("fields", J.arr [J.s "name^3", J.s "description"]),
    ("type", J.s "best_fields"),
    ("fuzziness", J.s "AUTO")])]

/-- The vector-similarity clause of lines 114-126 (`INFERENCE_ID` is
`"product-embedding-model"`). -/
def knnClause (q : String) : J :=
  J.obj [("knn", J.obj [
    ("field", J.s "product_embedding"),
    ("query_vector_builder", J.obj [("text_embedding", J.obj [
      ("model_id", J.s "product-embedding-model"),
      ("model_text", J.s q)])]),
    ("k", J.i 20),
    ("num_candidates", J.i 100)])]

/-- The `query` (and, with text, `rank`) fields of `search_body`,
lines 101-146. -/
def queryFields (args : Args) : List (String × J) :=
  if qParam args ≠ "" then
    [("query", J.obj [("bool", J.obj [
        ("should", J.arr [multiMatchClause (qParam args), knnClause (qParam args)]),
        ("filter", J.arr (filters args))])]),
     ("rank", J.obj [("rrf", J.obj [("window_size", J.i 100), ("rank_constant", J.i 60)])])]
  else
    [("query", J.obj [("bool", J.obj [
        ("must", J.arr [J.obj [("match_all", J.obj [])]]),
        ("filter", J.arr (filters args))])])]

/-- The `sort_options` table of lines 149-154. -/
def sortOptions : List (String × J) :=
  [("relevance", J.arr [J.obj [("_score", J.s "desc")]]),
   ("price_asc", J.arr [J.obj [("price", J.s "asc")]]),
   ("price_desc", J.arr [J.obj [("price", J.s "desc")]]),
   ("newest", J.arr [J.obj [("created_at", J.s "desc")]])]

/-- Python `sort_options.get(sort_by, sort_options["relevance"])` (line 158). -/
def sortOptionsGet (key : String) : J :=
  (jFieldsLookup sortOptions key).getD (J.arr [J.obj [("_score", J.s "desc")]])

/-- The conditional `search_body["sort"]` assignment of lines 155-158:
present only in the two branches taken there. -/
def sortFields (args : Args) : List (String × J) :=
  if qParam args = "" ∧ sortBy args = "relevance" then
    [("sort", J.arr [J.obj [("created_at", J.s "desc")]])]
  else if sortBy args ≠ "relevance" then
    [("sort", sortOptionsGet (sortBy args))]
  else
    []

/-- The highlight spec of lines 165-169. -/
def highlightSpec : J :=
  J.obj [("fields", J.obj [("name", J.obj []), ("description", J.obj [])]),
         ("pre_tags", J.arr [J.s "<em>"]),
         ("post_tags", J.arr [J.s "</em>"])]

/-- The facet (aggregation) spec of lines 172-188. -/
def aggsSpec : J :=
  J.obj [("categories", J.obj [("terms", J.obj [("field", J.s "category_id"), ("size", J.i 50)])]),
         ("statuses", J.obj [("terms", J.obj [("field", J.s "status"), ("size", J.i 10)])]),
         ("price_stats", J.obj [("stats", J.obj [("field", J.s "price")])]),
         ("price_ranges", J.obj [("range", J.obj [("field", J.s "price"),
           ("ranges", J.arr [
             J.obj [("to", J.i 50), ("key", J.s "Under $50")],
             J.obj [("from", J.i 50), ("to", J.i 100), ("key", J.s "$50-$100")],
             J.obj [("from", J.i 100), ("to", J.i 200), ("key", J.s "$100-$200")],
             J.obj [("from", J.i 200), ("to", J.i 500), ("key", J.s "$200-$500")],
             J.obj [("from", J.i 500), ("key", J.s "$500+")]])])])]

/-- Python `search_body["_source"] = {"excludes": ["product_embedding"]}` (line 191). -/
def sourceSpec : J := J.obj [("excludes", J.arr [J.s "product_embedding"])]

/-- The complete `search_body` sent to the engine by `search`
(src/search_api.py:100-193), fields in Python dict insertion order. -/
def searchBody (args : Args) : J :=
  J.obj (queryFields args ++ sortFields args
    ++ [("from", J.i ((page args - 1) * size args)),
        ("size", J.i (size args)),
        ("highlight", highlightSpec),
        ("aggs", aggsSpec),
        ("_source", sourceSpec)])

/-- Python `"pages": (total + size - 1) // size` (src/search_api.py:223); Python
`//` is floor division, i.e. `Int.fdiv`. -/
def pages (total sz : Int) : Int := Int.fdiv (total + sz - 1) sz

/-- The short-circuit response of `autocomplete` and `suggest`:
`{"suggestions": []}` (lines 236 and 278). -/
def emptySuggestions : J := J.obj [("suggestions", J.arr [])]

/-- The body `autocomplete` sends to the engine, or `none` when it returns
`{"suggestions": []}` without an engine call (src/search_api.py:234-254). -/
def autocompleteCall (args : Args) : Option J :=
  let q := pyStrip (getD args "q" "")
  if q = "" then none
  else some (J.obj [
    ("suggest", J.obj [("product-suggest", J.obj [
      ("prefix", J.s q),
      ("completion", J.obj [
        ("field", J.s "name_suggest"),
        ("size", J.i 8),
        ("skip_duplicates", J.b true),
        ("fuzzy", J.obj [("fuzziness", J.s "AUTO")])])])]),
    ("_source", J.arr [J.s "name", J.s "sku", J.s "price", J.s "status"])])

/-- The body `suggest` sends to the engine, or `none` when it returns
`{"suggestions": []}` without an engine call (src/search_api.py:276-297). -/
def suggestCall (args : Args) : Option J :=
  let q := pyStrip (getD args "q" "")
  if q = "" then none
  else some (J.obj [("suggest", J.obj [("spelling", J.obj [
    ("text", J.s q),
    ("phrase", J.obj [
      ("field", J.s "name"),
      ("size", J.i 3),
      ("gram_size", J.i 3),
      ("direct_generator", J.arr [J.obj [("field", J.s "name"),
        ("suggest_mode", J.s "popular")]])])])])])

end SearchApi

namespace CatalogSearch

/-- Python `q = request.args.get("q", "")` (src/catalog_search.py:147) — no strip. -/
def qParam (args : Args) : String := getD args "q" ""

/-- Python `categories = request.args.getlist("category")` (line 148). -/
def categories (args : Args) : List String := getlist args "category"

/-- Python `tags = request.args.getlist("tag")` (line 149). -/
def tags (args : Args) : List String := getlist args "tag"

/-- Python `min_price = request.args.get("min_price", type=float)` (line 150). -/
def minPrice (args : Args) : Option Rat := getParsed args "min_price" pyParseFloat?

/-- Python `max_price = request.args.get("max_price", type=float)` (line 151). -/
def maxPrice (args : Args) : Option Rat := getParsed args "max_price" pyParseFloat?

/-- Python `in_stock = request.args.get("in_stock", "true").lower() == "true"` (line 152). -/
def inStock (args : Args) : Bool := pyLower (getD args "in_stock" "true") = "true"

/-- Python `lat = request.args.get("lat", type=float)` (line 153). -/
def latParam (args : Args) : Option Rat := getParsed args "lat" pyParseFloat?

/-- Python `lon = request.args.get("lon", type=float)` (line 154). -/
def lonParam (args : Args) : Option Rat := getParsed args "lon" pyParseFloat?

/-- Python `distance = request.args.get("distance", "50km")` (line 155). -/
def distanceParam (args : Args) : String := getD args "distance" "50km"

/-- Python `sort_by = request.args.get("sort", "relevance")` (line 156). -/
def sortBy (args : Args) : String := getD args "sort" "relevance"

/-- Python `page = request.args.get("page", 1, type=int)` (line 157). -/
def page (args : Args) : Int := getParsedD args "page" 1 pyParseInt?

/-- Python `size = min(request.args.get("size", 20, type=int), 100)` (line 158). -/
def size (args : Args) : Int := min (getParsedD args "size" 20 pyParseInt?) 100

/-- The keyword clause appended to `must` at lines 163-170. -/
def multiMatchClause (q : String) : J :=
  J.obj [("multi_match", J.obj [
    ("query", J.s q),
    ("fields", J.arr [J.s "name^3", J.s "description", J.s "tags^2"]),
    ("type", J.s "best_fields"),
    ("fuzziness", J.s "AUTO")])]

/-- The `must` list of lines 161-170: the keyword clause when text is given. -/
def mustList (args : Args) : List J :=
  if qParam args ≠ "" then [multiMatchClause (qParam args)] else []

/-- The stock predicate `{"range": {"stock_level": {"gt": 0}}}` (line 174). -/
def stockFilter : J := J.obj [("range", J.obj [("stock_level", J.obj [("gt", J.i 0)])])]

/-- The geo-distance predicate of lines 184-189. -/
def geoFilter (distance : String) (lat lon : Rat) : J :=
  J.obj [("geo_distance", J.obj [
    ("distance", J.s distance),
    ("location", J.obj [("lat", J.f lat), ("lon", J.f lon)])])]

/-- Lines 173-174: stock predicate unless the caller opted out. -/
def stockFilters (args : Args) : List J :=
  if inStock args then [stockFilter] else []

/-- Lines 175-176: one term predicate per `category` value. -/
def categoryFilters (args : Args) : List J :=
  (categories args).map (fun cat => J.obj [("term", J.obj [("category", J.s cat)])])

/-- Lines 177-178: one term predicate per `tag` value. -/
def tagFilters (args : Args) : List J :=
  (tags args).map (fun tag => J.obj [("term", J.obj [("tags", J.s tag)])])

/-- Lines 179-180: the lower price bound, when `min_price` parses. -/
def minPriceFilters (args : Args) : List J :=
  match minPrice args with
  | some p => [J.obj [("range", J.obj [("price", J.obj [("gte", J.f p)])])]]
  | none => []

/-- Lines 181-182: the upper price bound, when `max_price` parses. -/
def maxPriceFilters (args : Args) : List J :=
  match maxPrice args with
  | some p => [J.obj [("range", J.obj [("price", J.obj [("lte", J.f p)])])]]
  | none => []

/-- Lines 183-189: the geo predicate, when both coordinates parse. -/
def geoFilters (args : Args) : List J :=
  match latParam args, lonParam args with
  | some la, some lo => [geoFilter (distanceParam args) la lo]
  | _, _ => []

/-- The `filters` list of lines 172-189, in append order. -/
def filters (args : Args) : List J :=
  stockFilters args ++ categoryFilters args ++ tagFilters args
    ++ minPriceFilters args ++ maxPriceFilters args ++ geoFilters args

/-- Python `sort_options["relevance"]` (line 193). -/
def relevanceSort : J :=
  J.arr [J.obj [("_score", J.s "desc")], J.obj [("stock_level", J.s "desc")]]

/-- The `sort_options` table of lines 192-197.  Note `"newest"` maps to a
score sort, not a recency sort: the catalog mapping has no timestamp field. -/
def sortOptions : List (String × J) :=
  [("relevance", relevanceSort),
   ("price_asc", J.arr [J.obj [("price", J.s "asc")]]),
   ("price_desc", J.arr [J.obj [("price", J.s "desc")]]),
   ("newest", J.arr [J.obj [("_score", J.s "desc")]])]

/-- The geo sort of lines 201-207. -/
def geoSortSpec (lat lon : Rat) : J :=
  J.arr [J.obj [("_geo_distance", J.obj [
    ("location", J.obj [("lat", J.f lat), ("lon", J.f lon)]),
    ("order", J.s "asc"),
    ("unit", J.s "km")])]]

/-- The sort resolution of lines 198-207: table lookup with relevance
fallback, overridden by the geo sort when `sort=distance` comes with a
parsed coordinate pair. -/
def sortSpec (args : Args) : J :=
  if sortBy args = "distance" ∧ (latParam args).isSome ∧ (lonParam args).isSome then
    geoSortSpec ((latParam args).getD 0) ((lonParam args).getD 0)
  else
    (jFieldsLookup sortOptions (sortBy args)).getD relevanceSort

/-- The highlight spec of lines 220-225. -/
def highlightSpec : J :=
  J.obj [("fields", J.obj [
    ("name", J.obj []),
    ("description", J.obj [("fragment_size", J.i 120), ("number_of_fragments", J.i 2)])])]

/-- The facet (aggregation) spec of lines 226-251. -/
def aggsSpec : J :=
  J.obj [("categories", J.obj [("terms", J.obj [("field", J.s "category"), ("size", J.i 30)])]),
         ("tags", J.obj [("terms", J.obj [("field", J.s "tags"), ("size", J.i 30)])]),
         ("price_ranges", J.obj [("range", J.obj [("field", J.s "price"),
           ("ranges", J.arr [
             J.obj [("to", J.i 25), ("key", J.s "Under $25")],
             J.obj [("from", J.i 25), ("to", J.i 50), ("key", J.s "$25–$50")],
             J.obj [("from", J.i 50), ("to", J.i 100), ("key", J.s "$50–$100")],
             J.obj [("from", J.i 100), ("to", J.i 200), ("key", J.s "$100–$200")],
             J.obj [("from", J.i 200), ("key", J.s "$200+")]])])]),
         ("price_stats", J.obj [("stats", J.obj [("field", J.s "price")])]),
         ("stock_status", J.obj [("range", J.obj [("field", J.s "stock_level"),
           ("ranges", J.arr [
             J.obj [("from", J.i 1), ("key", J.s "In Stock")],
             J.obj [("to", J.i 1), ("key", J.s "Out of Stock")]])])])]

/-- The phrase-correction request of lines 252-264 (the value of the
`"suggest"` key when query text is present). -/
def spellingSuggest (q : String) : J :=
  J.obj [("spelling", J.obj [
    ("text", J.s q),
    ("phrase", J.obj [
      ("field", J.s "name"),
      ("size", J.i 3),
      ("gram_size", J.i 3),
      ("direct_generator", J.arr [J.obj [("field", J.s "name"),
        ("suggest_mode", J.s "popular")]])])])]

/-- Python `{...} if q else {}` (lines 252-264): the suggest key is always present,
holding the phrase request with text, the empty dict without. -/
def suggestSpec (args : Args) : J :=
  if qParam args ≠ "" then spellingSuggest (qParam args) else J.obj []

/-- The complete `body` assembled by `product_search`
(src/catalog_search.py:209-265), fields in dict literal order. -/
def searchBody (args : Args) : J :=
  J.obj [
    ("query", J.obj [("bool", J.obj [
      ("must", J.arr (if (mustList args).isEmpty then [J.obj [("match_all", J.obj [])]]
                      else mustList args)),
      ("filter", J.arr (filters args))])]),
    ("from", J.i ((page args - 1) * size args)),
    ("size", J.i (size args)),
    ("sort", sortSpec args),
    ("highlight", highlightSpec),
    ("aggs", aggsSpec),
    ("suggest", suggestSpec args)]

/-- Python `"pages": (total + size - 1) // size` (src/catalog_search.py:309);
Python `//` is floor division, i.e. `Int.fdiv`. -/
def pages (total sz : Int) : Int := Int.fdiv (total + sz - 1) sz

end CatalogSearch

/-- Whether the first list of characters leads the second one. -/
def charsLeadWith : List Char → List Char → Bool
  | [], _ => true
  | _ :: _, [] => false
  | c :: cs, d :: ds => c = d && charsLeadWith cs ds

/-- Whether `needle` occurs contiguously inside `hay` (Python's
`needle in hay` on strings). -/
def charsContain (hay needle : List Char) : Bool :=
  match hay with
  | [] => needle.isEmpty
  | _ :: rest => charsLeadWith needle hay || charsContain rest needle

/-- Equality test between a JSON value and a Python string, as used by
Python's `x in somelist`. -/
def jElemEqStr : J → String → Bool
  | J.s x, key => x = key
  | _, _ => false

/-- Python `key in v` for a string key and a JSON value: key membership for
dicts, element membership for lists, substring test for strings; on other
values Python raises `TypeError`. -/
def jIn (key : String) : J → Except String Bool
  | J.obj fs => .ok (jFieldsLookup fs key).isSome
  | J.arr xs => .ok (xs.any (fun x => jElemEqStr x key))
  | J.s x => .ok (charsContain x.data key.data)
  | _ => .error "TypeError"

/-- Python `v[key]` for a string key: dict lookup (`KeyError` when absent);
on non-dicts a `TypeError` (string keys never index lists or strings). -/
def jGetItem (v : J) (key : String) : Except String J :=
  match v with
  | J.obj fs =>
    match jFieldsLookup fs key with
    | some x => .ok x
    | none => .error "KeyError"
  | _ => .error "TypeError"

/-- Python `v[0]`: first element of a list (`IndexError` when empty), first
character of a string; dicts raise `KeyError` (no integer keys occur in the
modelled responses) and other values `TypeError`. -/
def jIndex0 (v : J) : Except String J :=
  match v with
  | J.arr (x :: _) => .ok x
  | J.arr [] => .error "IndexError"
  | J.s x =>
    match x.data with
    | c :: _ => .ok (J.s ⟨[c]⟩)
    | [] => .error "IndexError"
  | J.obj _ => .error "KeyError"
  | _ => .error "TypeError"

/-- Python `v.get(key, default)`: only dicts have `.get`; other values
raise `AttributeError`. -/
def jGetD (v : J) (key : String) (default : J) : Except String J :=
  match v with
  | J.obj fs => .ok ((jFieldsLookup fs key).getD default)
  | _ => .error "AttributeError"

/-- Python `for x in v`: elements of a list, keys of a dict, characters of
a string; other values raise `TypeError`. -/
def jIterate (v : J) : Except String (List J) :=
  match v with
  | J.arr xs => .ok xs
  | J.obj fs => .ok (fs.map (fun p => J.s p.1))
  | J.s x => .ok (x.data.map (fun c => J.s ⟨[c]⟩))
  | _ => .error "TypeError"

namespace CatalogSearch

/-- The suggestion normalisation of src/catalog_search.py:272-275:
`if q and "suggest" in resp and "spelling" in resp["suggest"]`, then
`option["text"]` for each `option` in
`resp["suggest"]["spelling"][0].get("options", [])`.  Python runtime
errors on ill-shaped responses surface as `Except.error`. -/
def suggestionsOf (q : String) (resp : J) : Except String (List J) :=
  if q = "" then .ok []
  else match jIn "suggest" resp with
  | .error e => .error e
  | .ok false => .ok []
  | .ok true =>
    match jGetItem resp "suggest" with
    | .error e => .error e
    | .ok sug =>
      match jIn "spelling" sug with
      | .error e => .error e
      | .ok false => .ok []
      | .ok true =>
        match jGetItem sug "spelling" with
        | .error e => .error e
        | .ok spelling =>
          match jIndex0 spelling with
          | .error e => .error e
          | .ok first =>
            match jGetD first "options" (J.arr []) with
            | .error e => .error e
            | .ok options =>
              match jIterate options with
              | .error e => .error e
              | .ok opts => opts.mapM (fun o => jGetItem o "text")

/-- The body the catalog `autocomplete` endpoint sends to the engine
(src/catalog_search.py:321-339).  This endpoint has no empty-prefix
short-circuit: the engine call happens unconditionally.  The `Option`
result records whether a call is made, mirroring
`SearchApi.autocompleteCall`, so here it is always `some`. -/
def autocompleteCall (args : Args) : Option J :=
  let q := getD args "q" ""
  some (J.obj [
    ("suggest", J.obj [("product-suggest", J.obj [
      ("prefix", J.s q),
      ("completion", J.obj [
        ("field", J.s "name_suggest"),
        ("size", J.i 8),
        ("skip_duplicates", J.b true),
        ("fuzzy", J.obj [("fuzziness", J.s "AUTO")])])])]),
    ("_source", J.arr [J.s "name", J.s "product_id", J.s "price", J.s "category"])])

end CatalogSearch

mutual
/-- Whether a string occurs as an object key anywhere inside a JSON value. -/
def jHasKey : J → String → Bool
  | J.obj fs, key => jHasKeyFields fs key
  | J.arr xs, key => jHasKeyList xs key
  | _, _ => false

/-- Recursion of `jHasKey` over the elements of an array. -/
def jHasKeyList : List J → String → Bool
  | [], _ => false
  | x :: xs, key => jHasKey x key || jHasKeyList xs key

/-- Recursion of `jHasKey` over the fields of an object. -/
def jHasKeyFields : List (String × J) → String → Bool
  | [], _ => false
  | (k, v) :: fs, key => (k == key) || jHasKey v key || jHasKeyFields fs key
end

/-- The name/value pair carried by a nested attribute predicate of the
`SearchApi.attrFilter` shape; `none` on every other value. -/
def attrPredParts : J → Option (String × String)
  | J.obj [("nested", J.obj [
      ("path", J.s "attributes"),
      ("query", J.obj [("bool", J.obj [("must", J.arr [
        J.obj [("term", J.obj [("attributes.name", J.s n)])],
        J.obj [("term", J.obj [("attributes.value", J.s v)])]])])])])] => some (n, v)
  | _ => none

/-- The attribute name of a nested attribute predicate, `none` elsewhere. -/
def attrPredName (x : J) : Option String := (attrPredParts x).map (fun p => p.1)

theorem jFieldsLookup_append_none (fs gs : List (String × J)) (key : String)
    (h : jFieldsLookup fs key = none) :
    jFieldsLookup (fs ++ gs) key = jFieldsLookup gs key := by
  induction fs with
  | nil => rfl
  | cons p fs ih =>
    obtain ⟨k, v⟩ := p
    simp only [List.cons_append, jFieldsLookup] at h ⊢
    by_cases hk : k = key
    · simp [hk] at h
    · simp only [if_neg hk] at h ⊢
      exact ih h

theorem searchApi_queryFields_lookup_none (args : Args) (key : String)
    (h1 : key ≠ "query") (h2 : key ≠ "rank") :
    jFieldsLookup (SearchApi.queryFields args) key = none := by
  unfold SearchApi.queryFields
  split <;> simp [jFieldsLookup, Ne.symm h1, Ne.symm h2]

theorem searchApi_sortFields_lookup_none (args : Args) (key : String)
    (h : key ≠ "sort") :
    jFieldsLookup (SearchApi.sortFields args) key = none := by
  unfold SearchApi.sortFields
  split
  · simp [jFieldsLookup, Ne.symm h]
  · split <;> simp [jFieldsLookup, Ne.symm h]

theorem searchApi_searchBody_lookup (args : Args) (key : String)
    (h1 : key ≠ "query") (h2 : key ≠ "rank") (h3 : key ≠ "sort") :
    (SearchApi.searchBody args).lookup key =
      jFieldsLookup [("from", J.i ((SearchApi.page args - 1) * SearchApi.size args)),
        ("size", J.i (SearchApi.size args)),
        ("highlight", SearchApi.highlightSpec),
        ("aggs", SearchApi.aggsSpec),
        ("_source", SearchApi.sourceSpec)] key := by
  show jFieldsLookup _ key = _
  rw [List.append_assoc,
    jFieldsLookup_append_none _ _ _ (searchApi_queryFields_lookup_none args key h1 h2),
    jFieldsLookup_append_none _ _ _ (searchApi_sortFields_lookup_none args key h3)]

theorem searchApi_lookup_size (args : Args) :
    (SearchApi.searchBody args).lookup "size" = some (J.i (SearchApi.size args)) := by
  rw [searchApi_searchBody_lookup args "size" (by decide) (by decide) (by decide)]
  rfl

theorem searchApi_lookup_from (args : Args) :
    (SearchApi.searchBody args).lookup "from" =
      some (J.i ((SearchApi.page args - 1) * SearchApi.size args)) := by
  rw [searchApi_searchBody_lookup args "from" (by decide) (by decide) (by decide)]
  rfl

theorem catalog_lookup_size (args : Args) :
    (CatalogSearch.searchBody args).lookup "size" = some (J.i (CatalogSearch.size args)) := rfl

theorem catalog_lookup_from (args : Args) :
    (CatalogSearch.searchBody args).lookup "from" =
      some (J.i ((CatalogSearch.page args - 1) * CatalogSearch.size args)) := rfl

/-- C1, counterexample: a request with `size=0` has effective size 0, not 1
— the code caps the size from above only (`min(..., 100)`), it never raises
a size below 1, so the claimed clamp to `[1,100]` fails. -/
theorem C1_size_counterexample :
    SearchApi.size [("size", "0")] = 0 ∧
    CatalogSearch.size [("size", "0")] = 0 ∧
    ¬ (1 ≤ SearchApi.size [("size", "0")]) ∧
    (SearchApi.searchBody [("size", "0")]).lookup "size" = some (J.i 0) :=
  ⟨rfl, rfl, by decide, rfl⟩

/-- C1, amended: in both `search` and `product_search` the effective size
is `min(parsed size, 100)`: an absent `size` defaults to 20, a size of 100
or more is replaced by exactly 100, and the effective size is what the
plan's `size` field carries — but there is no lower clamp, so a size below
1 is used as supplied. -/
theorem C1_size_amended (args : Args) :
    SearchApi.size args ≤ 100 ∧ CatalogSearch.size args ≤ 100 ∧
    (getFirst args "size" = none →
      SearchApi.size args = 20 ∧ CatalogSearch.size args = 20) ∧
    (100 ≤ getParsedD args "size" 20 pyParseInt? →
      SearchApi.size args = 100 ∧ CatalogSearch.size args = 100) ∧
    (SearchApi.searchBody args).lookup "size" = some (J.i (SearchApi.size args)) ∧
    (CatalogSearch.searchBody args).lookup "size" = some (J.i (CatalogSearch.size args)) := by
  refine ⟨min_le_right _ _, min_le_right _ _, ?_, ?_, searchApi_lookup_size args, rfl⟩
  · intro h
    unfold SearchApi.size CatalogSearch.size getParsedD
    rw [h]
    exact ⟨rfl, rfl⟩
  · intro h
    unfold SearchApi.size CatalogSearch.size
    exact ⟨min_eq_right h, min_eq_right h⟩

/-- C1, witness: `size=250` is capped to 100; the bound 100 is attained. -/
theorem C1_size_witness :
    SearchApi.size [("size", "250")] ≤ 100 ∧
    SearchApi.size [("size", "250")] = 100 ∧
    CatalogSearch.size [("size", "250")] = 100 :=
  ⟨(C1_size_amended [("size", "250")]).1,
   ((C1_size_amended [("size", "250")]).2.2.2.1 (by decide)).1,
   ((C1_size_amended [("size", "250")]).2.2.2.1 (by decide)).2⟩

/-- C2, counterexample: a request with `page=0` keeps effective page 0 and
the plan's offset is `(0 - 1) * 20 = -20`, not 0 — the code defaults the
page only when the parameter is absent or unparseable, it never raises a
non-positive page to 1. -/
theorem C2_offset_counterexample :
    SearchApi.page [("page", "0")] = 0 ∧
    (SearchApi.searchBody [("page", "0")]).lookup "from" = some (J.i (-20)) ∧
    (CatalogSearch.searchBody [("page", "0")]).lookup "from" = some (J.i (-20)) :=
  ⟨rfl, rfl, rfl⟩

/-- C2, amended: in both endpoints an absent `page` defaults to 1 and then
the offset is 0; in general the plan's `from` field is `(page - 1) * size`
with `page` the parsed value as supplied (not raised to 1 when ≤ 0). -/
theorem C2_offset_amended (args : Args) :
    (getFirst args "page" = none →
      SearchApi.page args = 1 ∧ CatalogSearch.page args = 1 ∧
      (SearchApi.searchBody args).lookup "from" = some (J.i 0) ∧
      (CatalogSearch.searchBody args).lookup "from" = some (J.i 0)) ∧
    (SearchApi.searchBody args).lookup "from" =
      some (J.i ((SearchApi.page args - 1) * SearchApi.size args)) ∧
    (CatalogSearch.searchBody args).lookup "from" =
      some (J.i ((CatalogSearch.page args - 1) * CatalogSearch.size args)) := by
  refine ⟨?_, searchApi_lookup_from args, rfl⟩
  intro h
  have hp1 : SearchApi.page args = 1 := by
    unfold SearchApi.page getParsedD
    rw [h]
  have hp2 : CatalogSearch.page args = 1 := by
    unfold CatalogSearch.page getParsedD
    rw [h]
  refine ⟨hp1, hp2, ?_, ?_⟩
  · rw [searchApi_lookup_from args, hp1]
    norm_num
  · rw [catalog_lookup_from args, hp2]
    norm_num

/-- C2, witness: with no parameters, effective page is 1 and offset 0. -/
theorem C2_offset_witness :
    SearchApi.page ([] : Args) = 1 ∧
    (SearchApi.searchBody ([] : Args)).lookup "from" = some (J.i 0) ∧
    (CatalogSearch.searchBody ([] : Args)).lookup "from" = some (J.i 0) :=
  ⟨((C2_offset_amended []).1 rfl).1, ((C2_offset_amended []).1 rfl).2.2.1,
   ((C2_offset_amended []).1 rfl).2.2.2⟩

theorem pages_formula_eq_ceil (t s : Int) (_ht : 0 ≤ t) (hs : 1 ≤ s) :
    Int.fdiv (t + s - 1) s = ⌈(t : ℚ) / (s : ℚ)⌉ := by
  have hs0 : (0 : ℤ) < s := by omega
  have hsne : s ≠ 0 := by omega
  have hfd : Int.fdiv (t + s - 1) s = (t + s - 1) / s := Int.fdiv_eq_ediv _ (by omega)
  have hmod1 : 0 ≤ (t + s - 1) % s := Int.emod_nonneg _ hsne
  have hmod2 : (t + s - 1) % s < s := Int.emod_lt_of_pos _ hs0
  have hdm := Int.ediv_add_emod (t + s - 1) s
  set d := (t + s - 1) / s with hd
  have h1 : t ≤ s * d := by linarith
  have h2 : s * d ≤ t + s - 1 := by linarith
  have hsq : (0 : ℚ) < (s : ℚ) := by exact_mod_cast hs0
  have h1q : (t : ℚ) ≤ (s : ℚ) * (d : ℚ) := by exact_mod_cast h1
  have h2q : (s : ℚ) * (d : ℚ) ≤ (t : ℚ) + (s : ℚ) - 1 := by exact_mod_cast h2
  rw [hfd]
  symm
  rw [Int.ceil_eq_iff]
  constructor
  · rw [lt_div_iff₀ hsq]
    nlinarith
  · rw [div_le_iff₀ hsq]
    nlinarith

/-- C8: the page count `(total + size - 1) // size` computed by both
endpoints equals `ceil(total / size)` whenever `total ≥ 0` and `size ≥ 1`;
in particular 97 hits at size 20 give 5 pages and 0 hits give 0 pages. -/
theorem C8_page_count (t s : Int) (ht : 0 ≤ t) (hs : 1 ≤ s) :
    SearchApi.pages t s = ⌈(t : ℚ) / (s : ℚ)⌉ ∧
    CatalogSearch.pages t s = ⌈(t : ℚ) / (s : ℚ)⌉ ∧
    SearchApi.pages 97 20 = 5 ∧ SearchApi.pages 0 20 = 0 ∧
    CatalogSearch.pages 97 20 = 5 ∧ CatalogSearch.pages 0 20 = 0 :=
  ⟨pages_formula_eq_ceil t s ht hs, pages_formula_eq_ceil t s ht hs,
   rfl, rfl, rfl, rfl⟩

/-- C8, witness: the page-count identity at `total=97`, `size=20`. -/
theorem C8_page_count_witness :
    SearchApi.pages 97 20 = ⌈(97 : ℚ) / (20 : ℚ)⌉ ∧ SearchApi.pages 97 20 = 5 :=
  ⟨(C8_page_count 97 20 (by norm_num) (by norm_num)).1,
   (C8_page_count 97 20 (by norm_num) (by norm_num)).2.2.1⟩

theorem searchApi_mem_categoryFilters (args : Args) (x : J)
    (h : x ∈ SearchApi.categoryFilters args) :
    ∃ c, x = J.obj [("term", J.obj [("category_id", J.i c)])] := by
  unfold SearchApi.categoryFilters at h
  split at h
  · exact ⟨_, List.eq_of_mem_singleton h⟩
  · exact absurd h (List.not_mem_nil x)

theorem searchApi_mem_statusFilters (args : Args) (x : J)
    (h : x ∈ SearchApi.statusFilters args) :
    ∃ st, x = J.obj [("term", J.obj [("status", J.s st)])] := by
  unfold SearchApi.statusFilters at h
  split at h
  · split at h
    · exact ⟨_, List.eq_of_mem_singleton h⟩
    · exact absurd h (List.not_mem_nil x)
  · exact absurd h (List.not_mem_nil x)

theorem searchApi_mem_minPriceFilters (args : Args) (x : J)
    (h : x ∈ SearchApi.minPriceFilters args) :
    ∃ p, x = J.obj [("range", J.obj [("price", J.obj [("gte", J.f p)])])] := by
  unfold SearchApi.minPriceFilters at h
  split at h
  · exact ⟨_, List.eq_of_mem_singleton h⟩
  · exact absurd h (List.not_mem_nil x)

theorem searchApi_mem_maxPriceFilters (args : Args) (x : J)
    (h : x ∈ SearchApi.maxPriceFilters args) :
    ∃ p, x = J.obj [("range", J.obj [("price", J.obj [("lte", J.f p)])])] := by
  unfold SearchApi.maxPriceFilters at h
  split at h
  · exact ⟨_, List.eq_of_mem_singleton h⟩
  · exact absurd h (List.not_mem_nil x)

theorem searchApi_mem_attrFilters (args : Args) (x : J)
    (h : x ∈ SearchApi.attrFilters args) :
    ∃ p, p ∈ argsItems args ∧ SearchApi.isAttrKey p.1 = true ∧
      x = SearchApi.attrFilter (p.1.drop 5) p.2 := by
  unfold SearchApi.attrFilters at h
  obtain ⟨p, hp, hx⟩ := List.mem_filterMap.mp h
  by_cases hk : SearchApi.isAttrKey p.1 = true
  · rw [if_pos hk] at hx
    exact ⟨p, hp, hk, (Option.some_inj.mp hx).symm⟩
  · rw [if_neg hk] at hx
    cases hx

theorem searchApi_mem_stockFilters (args : Args) (x : J)
    (h : x ∈ SearchApi.stockFilters args) :
    x = SearchApi.stockFilter ∧ SearchApi.inStock args = some "true" := by
  unfold SearchApi.stockFilters at h
  split at h
  · exact ⟨List.eq_of_mem_singleton h, by assumption⟩
  · exact absurd h (List.not_mem_nil x)

theorem searchApi_stock_mem_iff (args : Args) :
    SearchApi.stockFilter ∈ SearchApi.filters args ↔
      SearchApi.inStock args = some "true" := by
  constructor
  · intro h
    unfold SearchApi.filters at h
    simp only [List.mem_append] at h
    rcases h with ((((h | h) | h) | h) | h) | h
    · obtain ⟨c, hc⟩ := searchApi_mem_categoryFilters args _ h
      simp [SearchApi.stockFilter] at hc
    · obtain ⟨st, hc⟩ := searchApi_mem_statusFilters args _ h
      simp [SearchApi.stockFilter] at hc
    · obtain ⟨p, hc⟩ := searchApi_mem_minPriceFilters args _ h
      simp [SearchApi.stockFilter] at hc
    · obtain ⟨p, hc⟩ := searchApi_mem_maxPriceFilters args _ h
      simp [SearchApi.stockFilter] at hc
    · exact (searchApi_mem_stockFilters args _ h).2
    · obtain ⟨p, _, _, hc⟩ := searchApi_mem_attrFilters args _ h
      simp [SearchApi.stockFilter, SearchApi.attrFilter] at hc
  · intro h
    unfold SearchApi.filters
    simp only [List.mem_append]
    refine Or.inl (Or.inr ?_)
    unfold SearchApi.stockFilters
    rw [if_pos h]
    exact List.mem_singleton_self _

theorem catalog_mem_categoryFilters (args : Args) (x : J)
    (h : x ∈ CatalogSearch.categoryFilters args) :
    ∃ c, x = J.obj [("term", J.obj [("category", J.s c)])] := by
  unfold CatalogSearch.categoryFilters at h
  obtain ⟨c, _, hc⟩ := List.mem_map.mp h
  exact ⟨c, hc.symm⟩

theorem catalog_mem_tagFilters (args : Args) (x : J)
    (h : x ∈ CatalogSearch.tagFilters args) :
    ∃ t, x = J.obj [("term", J.obj [("tags", J.s t)])] := by
  unfold CatalogSearch.tagFilters at h
  obtain ⟨t, _, ht⟩ := List.mem_map.mp h
  exact ⟨t, ht.symm⟩

theorem catalog_mem_minPriceFilters (args : Args) (x : J)
    (h : x ∈ CatalogSearch.minPriceFilters args) :
    ∃ p, x = J.obj [("range", J.obj [("price", J.obj [("gte", J.f p)])])] := by
  unfold CatalogSearch.minPriceFilters at h
  split at h
  · exact ⟨_, List.eq_of_mem_singleton h⟩
  · exact absurd h (List.not_mem_nil x)

theorem catalog_mem_maxPriceFilters (args : Args) (x : J)
    (h : x ∈ CatalogSearch.maxPriceFilters args) :
    ∃ p, x = J.obj [("range", J.obj [("price", J.obj [("lte", J.f p)])])] := by
  unfold CatalogSearch.maxPriceFilters at h
  split at h
  · exact ⟨_, List.eq_of_mem_singleton h⟩
  · exact absurd h (List.not_mem_nil x)

theorem catalog_mem_geoFilters (args : Args) (x : J)
    (h : x ∈ CatalogSearch.geoFilters args) :
    ∃ d la lo, x = CatalogSearch.geoFilter d la lo := by
  unfold CatalogSearch.geoFilters at h
  split at h
  · exact ⟨_, _, _, List.eq_of_mem_singleton h⟩
  · exact absurd h (List.not_mem_nil x)

theorem catalog_mem_stockFilters (args : Args) (x : J)
    (h : x ∈ CatalogSearch.stockFilters args) :
    x = CatalogSearch.stockFilter ∧ CatalogSearch.inStock args = true := by
  unfold CatalogSearch.stockFilters at h
  split at h
  · exact ⟨List.eq_of_mem_singleton h, by assumption⟩
  · exact absurd h (List.not_mem_nil x)

theorem catalog_stock_mem_iff (args : Args) :
    CatalogSearch.stockFilter ∈ CatalogSearch.filters args ↔
      CatalogSearch.inStock args = true := by
  constructor
  · intro h
    unfold CatalogSearch.filters at h
    simp only [List.mem_append] at h
    rcases h with ((((h | h) | h) | h) | h) | h
    · exact (catalog_mem_stockFilters args _ h).2
    · obtain ⟨c, hc⟩ := catalog_mem_categoryFilters args _ h
      simp [CatalogSearch.stockFilter] at hc
    · obtain ⟨t, hc⟩ := catalog_mem_tagFilters args _ h
      simp [CatalogSearch.stockFilter] at hc
    · obtain ⟨p, hc⟩ := catalog_mem_minPriceFilters args _ h
      simp [CatalogSearch.stockFilter] at hc
    · obtain ⟨p, hc⟩ := catalog_mem_maxPriceFilters args _ h
      simp [CatalogSearch.stockFilter] at hc
    · obtain ⟨d, la, lo, hc⟩ := catalog_mem_geoFilters args _ h
      simp [CatalogSearch.stockFilter, CatalogSearch.geoFilter] at hc
  · intro h
    unfold CatalogSearch.filters
    simp only [List.mem_append]
    refine Or.inl (Or.inl (Or.inl (Or.inl (Or.inl ?_))))
    unfold CatalogSearch.stockFilters
    rw [if_pos h]
    exact List.mem_singleton_self _

/-- C3, counterexample: a `search_api.search` request with no parameters —
so no explicit opt-out from stock filtering — produces an empty filter
list: the stock-availability predicate is absent even though the caller
did not opt out, refuting in-stock-only as the default for every search
request. -/
theorem C3_stock_default_counterexample :
    SearchApi.filters ([] : Args) = [] ∧
    SearchApi.stockFilter ∉ SearchApi.filters ([] : Args) := by
  refine ⟨rfl, ?_⟩
  intro h
  rw [show SearchApi.filters ([] : Args) = [] from rfl] at h
  exact List.not_mem_nil _ h

/-- C3, amended: the two endpoints disagree.  In
`catalog_search.product_search` the stock predicate is on by default and
absent exactly when the caller passes an `in_stock` value other than
case-insensitive "true" (opt-out).  In `search_api.search` the predicate is
opt-in: it is present exactly when the caller passes `in_stock=true`, and
in particular absent when `in_stock` is not supplied. -/
theorem C3_stock_default_amended (args : Args) :
    (SearchApi.stockFilter ∈ SearchApi.filters args ↔
      SearchApi.inStock args = some "true") ∧
    (CatalogSearch.stockFilter ∈ CatalogSearch.filters args ↔
      CatalogSearch.inStock args = true) ∧
    (getFirst args "in_stock" = none →
      SearchApi.stockFilter ∉ SearchApi.filters args ∧
      CatalogSearch.stockFilter ∈ CatalogSearch.filters args) := by
  refine ⟨searchApi_stock_mem_iff args, catalog_stock_mem_iff args, ?_⟩
  intro h
  constructor
  · intro hmem
    have := (searchApi_stock_mem_iff args).mp hmem
    unfold SearchApi.inStock at this
    rw [h] at this
    cases this
  · refine (catalog_stock_mem_iff args).mpr ?_
    unfold CatalogSearch.inStock getD
    rw [h]
    rfl

/-- C3, witness: a request that never mentions `in_stock` gets the stock
predicate in the catalog endpoint but not in the search_api endpoint. -/
theorem C3_stock_default_witness :
    SearchApi.stockFilter ∉ SearchApi.filters ([("q", "boots")] : Args) ∧
    CatalogSearch.stockFilter ∈ CatalogSearch.filters ([("q", "boots")] : Args) :=
  (C3_stock_default_amended [("q", "boots")]).2.2 rfl

theorem searchApi_queryFields_browse (args : Args) (hq : SearchApi.qParam args = "") :
    SearchApi.queryFields args =
      [("query", J.obj [("bool", J.obj [
        ("must", J.arr [J.obj [("match_all", J.obj [])]]),
        ("filter", J.arr (SearchApi.filters args))])])] := by
  unfold SearchApi.queryFields
  rw [if_neg (by simp [hq])]

theorem searchApi_lookup_sort_browse (args : Args) (hq : SearchApi.qParam args = "")
    (hs : SearchApi.sortBy args = "relevance") :
    (SearchApi.searchBody args).lookup "sort" =
      some (J.arr [J.obj [("created_at", J.s "desc")]]) := by
  show jFieldsLookup _ _ = _
  rw [List.append_assoc,
    jFieldsLookup_append_none _ _ _ (searchApi_queryFields_lookup_none args "sort"
      (by decide) (by decide))]
  unfold SearchApi.sortFields
  rw [if_pos ⟨hq, hs⟩]
  rfl

theorem searchApi_lookup_query_browse (args : Args) (hq : SearchApi.qParam args = "") :
    (SearchApi.searchBody args).lookup "query" =
      some (J.obj [("bool", J.obj [
        ("must", J.arr [J.obj [("match_all", J.obj [])]]),
        ("filter", J.arr (SearchApi.filters args))])]) := by
  show jFieldsLookup _ _ = _
  rw [List.append_assoc, searchApi_queryFields_browse args hq]
  rfl

theorem searchApi_lookup_rank_browse (args : Args) (hq : SearchApi.qParam args = "") :
    (SearchApi.searchBody args).lookup "rank" = none := by
  show jFieldsLookup _ _ = _
  rw [List.append_assoc,
    jFieldsLookup_append_none _ _ _
      (by rw [searchApi_queryFields_browse args hq]; rfl),
    jFieldsLookup_append_none _ _ _
      (searchApi_sortFields_lookup_none args "rank" (by decide))]
  rfl

theorem jHasKeyList_eq_false_iff (xs : List J) (key : String) :
    jHasKeyList xs key = false ↔ ∀ x ∈ xs, jHasKey x key = false := by
  induction xs with
  | nil => simp [jHasKeyList]
  | cons x xs ih => simp [jHasKeyList, ih]

theorem jHasKeyFields_append (fs gs : List (String × J)) (key : String) :
    jHasKeyFields (fs ++ gs) key = (jHasKeyFields fs key || jHasKeyFields gs key) := by
  induction fs with
  | nil => simp [jHasKeyFields]
  | cons p fs ih =>
    obtain ⟨k, v⟩ := p
    simp [jHasKeyFields, ih, Bool.or_assoc]

theorem searchApi_filters_no_fusion (args : Args) :
    jHasKeyList (SearchApi.filters args) "knn" = false ∧
    jHasKeyList (SearchApi.filters args) "rrf" = false := by
  constructor <;>
  · rw [jHasKeyList_eq_false_iff]
    intro x hx
    unfold SearchApi.filters at hx
    simp only [List.mem_append] at hx
    rcases hx with ((((h | h) | h) | h) | h) | h
    · obtain ⟨c, rfl⟩ := searchApi_mem_categoryFilters args _ h
      rfl
    · obtain ⟨st, rfl⟩ := searchApi_mem_statusFilters args _ h
      rfl
    · obtain ⟨p, rfl⟩ := searchApi_mem_minPriceFilters args _ h
      rfl
    · obtain ⟨p, rfl⟩ := searchApi_mem_maxPriceFilters args _ h
      rfl
    · rw [(searchApi_mem_stockFilters args _ h).1]
      rfl
    · obtain ⟨p, _, _, rfl⟩ := searchApi_mem_attrFilters args _ h
      rfl

theorem searchApi_sortOptionsGet_no_fusion (s : String) :
    jHasKey (SearchApi.sortOptionsGet s) "knn" = false ∧
    jHasKey (SearchApi.sortOptionsGet s) "rrf" = false := by
  simp only [SearchApi.sortOptionsGet, SearchApi.sortOptions, jFieldsLookup]
  constructor <;> (repeat' split) <;> rfl

theorem searchApi_sortFields_no_fusion (args : Args) :
    jHasKeyFields (SearchApi.sortFields args) "knn" = false ∧
    jHasKeyFields (SearchApi.sortFields args) "rrf" = false := by
  constructor <;>
  · unfold SearchApi.sortFields
    split
    · rfl
    · split
      · simp [jHasKeyFields, jHasKey,
          (searchApi_sortOptionsGet_no_fusion (SearchApi.sortBy args)).1,
          (searchApi_sortOptionsGet_no_fusion (SearchApi.sortBy args)).2]
      · rfl

/-- C6: for every `search_api.search` request with empty query text, the
assembled plan contains no vector-similarity (`knn`) clause and no
rank-fusion (`rrf`/`rank`) parameters: neither key occurs anywhere in the
body, and the top-level `rank` entry is absent. -/
theorem C6_browse_no_knn_no_rrf (args : Args) (hq : SearchApi.qParam args = "") :
    jHasKey (SearchApi.searchBody args) "knn" = false ∧
    jHasKey (SearchApi.searchBody args) "rrf" = false ∧
    (SearchApi.searchBody args).lookup "rank" = none := by
  refine ⟨?_, ?_, searchApi_lookup_rank_browse args hq⟩ <;>
  · show jHasKeyFields _ _ = false
    rw [List.append_assoc, jHasKeyFields_append, jHasKeyFields_append,
      searchApi_queryFields_browse args hq]
    simp [jHasKeyFields, jHasKey, jHasKeyList,
      (searchApi_filters_no_fusion args).1, (searchApi_filters_no_fusion args).2,
      (searchApi_sortFields_no_fusion args).1, (searchApi_sortFields_no_fusion args).2]
    exact ⟨rfl, rfl, rfl⟩

/-- C6, witness: the bare browse request. -/
theorem C6_browse_witness :
    jHasKey (SearchApi.searchBody ([] : Args)) "knn" = false ∧
    jHasKey (SearchApi.searchBody ([] : Args)) "rrf" = false ∧
    (SearchApi.searchBody ([] : Args)).lookup "rank" = none :=
  C6_browse_no_knn_no_rrf [] rfl

/-- C4, counterexample: the bare browse request on
`catalog_search.product_search` (empty query text, default sort) sorts by
the relevance table entry `[{"_score": "desc"}, {"stock_level": "desc"}]`,
not by creation time descending — no `created_at` key occurs anywhere in
the assembled body, so the claimed newest-first default fails there. -/
theorem C4_newest_sort_counterexample :
    (CatalogSearch.searchBody ([] : Args)).lookup "sort" =
      some (J.arr [J.obj [("_score", J.s "desc")], J.obj [("stock_level", J.s "desc")]]) ∧
    jHasKey (CatalogSearch.searchBody ([] : Args)) "created_at" = false :=
  ⟨rfl, rfl⟩

/-- C4, amended: in `search_api.search`, a request with empty query text
and the default (`relevance`) sort gets `[{"created_at": "desc"}]` as sort
and a match-everything must-clause.  In `catalog_search.product_search`
the must-clause is likewise match-everything, but the browse-mode default
sort remains the relevance entry `[{"_score":"desc"},{"stock_level":"desc"}]`
— that endpoint has no creation-time sort at all. -/
theorem C4_newest_sort_amended (args : Args)
    (hq : SearchApi.qParam args = "") (hs : SearchApi.sortBy args = "relevance") :
    (SearchApi.searchBody args).lookup "sort" =
      some (J.arr [J.obj [("created_at", J.s "desc")]]) ∧
    (SearchApi.searchBody args).lookup "query" =
      some (J.obj [("bool", J.obj [
        ("must", J.arr [J.obj [("match_all", J.obj [])]]),
        ("filter", J.arr (SearchApi.filters args))])]) ∧
    (CatalogSearch.qParam args = "" ∧ CatalogSearch.sortBy args = "relevance" →
      (CatalogSearch.searchBody args).lookup "sort" = some CatalogSearch.relevanceSort ∧
      (CatalogSearch.searchBody args).lookup "query" =
        some (J.obj [("bool", J.obj [
          ("must", J.arr [J.obj [("match_all", J.obj [])]]),
          ("filter", J.arr (CatalogSearch.filters args))])])) := by
  refine ⟨searchApi_lookup_sort_browse args hq hs, searchApi_lookup_query_browse args hq, ?_⟩
  rintro ⟨hq2, hs2⟩
  constructor
  · have hsort : CatalogSearch.sortSpec args = CatalogSearch.relevanceSort := by
      unfold CatalogSearch.sortSpec
      rw [if_neg (by simp [hs2])]
      rw [hs2]
      rfl
    show some (CatalogSearch.sortSpec args) = _
    rw [hsort]
  · have hm : CatalogSearch.mustList args = [] := by
      unfold CatalogSearch.mustList
      rw [if_neg (by simp [hq2])]
    show some (J.obj [("bool", J.obj [
        ("must", J.arr (if (CatalogSearch.mustList args).isEmpty
          then [J.obj [("match_all", J.obj [])]] else CatalogSearch.mustList args)),
        ("filter", J.arr (CatalogSearch.filters args))])]) = _
    rw [hm]
    rfl

/-- C4, witness: the bare browse request on both endpoints. -/
theorem C4_newest_sort_witness :
    (SearchApi.searchBody ([] : Args)).lookup "sort" =
      some (J.arr [J.obj [("created_at", J.s "desc")]]) ∧
    (CatalogSearch.searchBody ([] : Args)).lookup "sort" =
      some CatalogSearch.relevanceSort :=
  ⟨(C4_newest_sort_amended [] rfl rfl).1,
   ((C4_newest_sort_amended [] rfl rfl).2.2 ⟨rfl, rfl⟩).1⟩

/-- C5, counterexample: the catalog `autocomplete` endpoint has no
empty-prefix short-circuit — with no `q` parameter at all it still issues
its engine call, refuting the claim for every autocomplete request. -/
theorem C5_short_circuit_counterexample :
    CatalogSearch.autocompleteCall ([] : Args) ≠ none ∧
    (CatalogSearch.autocompleteCall ([] : Args)).isSome = true :=
  ⟨Option.ne_none_iff_isSome.mpr rfl, rfl⟩

/-- C5, amended: the `search_api` endpoints (`autocomplete` and `suggest`)
short-circuit on an empty or missing prefix, returning
`{"suggestions": []}` without an engine call; the catalog `autocomplete`
endpoint does not: it always issues the engine call. -/
theorem C5_short_circuit_amended (args : Args)
    (h : pyStrip (getD args "q" "") = "") :
    SearchApi.autocompleteCall args = none ∧
    SearchApi.suggestCall args = none ∧
    SearchApi.emptySuggestions = J.obj [("suggestions", J.arr [])] ∧
    (CatalogSearch.autocompleteCall args).isSome = true := by
  refine ⟨?_, ?_, rfl, rfl⟩
  · simp [SearchApi.autocompleteCall, h]
  · simp [SearchApi.suggestCall, h]

/-- C5, witness: a whitespace-only prefix short-circuits both `search_api`
endpoints while the catalog endpoint still calls the engine. -/
theorem C5_short_circuit_witness :
    SearchApi.autocompleteCall [("q", "  ")] = none ∧
    SearchApi.suggestCall [("q", "  ")] = none ∧
    (CatalogSearch.autocompleteCall [("q", "  ")]).isSome = true :=
  ⟨(C5_short_circuit_amended [("q", "  ")] rfl).1,
   (C5_short_circuit_amended [("q", "  ")] rfl).2.1,
   (C5_short_circuit_amended [("q", "  ")] rfl).2.2.2⟩

/-- C9: in `catalog_search.product_search` the spelling-suggestion request
is attached exactly when the query text is nonempty (otherwise the
`suggest` entry is the empty dict), asking for the top 3 phrase
corrections over the `name` field with gram size 3 and the `popular`
candidate mode; and whenever the engine response carries no suggestion
context (empty query, no `suggest` key, or no `spelling` context), the
normalised suggestion list is empty and no error is raised. -/
theorem C9_spelling_suggestion (args : Args) (resp : J) :
    (CatalogSearch.qParam args ≠ "" →
      (CatalogSearch.searchBody args).lookup "suggest" =
        some (J.obj [("spelling", J.obj [
          ("text", J.s (CatalogSearch.qParam args)),
          ("phrase", J.obj [
            ("field", J.s "name"),
            ("size", J.i 3),
            ("gram_size", J.i 3),
            ("direct_generator", J.arr [J.obj [("field", J.s "name"),
              ("suggest_mode", J.s "popular")]])])])])) ∧
    (CatalogSearch.qParam args = "" →
      (CatalogSearch.searchBody args).lookup "suggest" = some (J.obj [])) ∧
    (CatalogSearch.qParam args = "" →
      CatalogSearch.suggestionsOf (CatalogSearch.qParam args) resp = .ok []) ∧
    (∀ fs, resp = J.obj fs → jFieldsLookup fs "suggest" = none →
      CatalogSearch.suggestionsOf (CatalogSearch.qParam args) resp = .ok []) ∧
    (∀ fs gs, resp = J.obj fs → jFieldsLookup fs "suggest" = some (J.obj gs) →
      jFieldsLookup gs "spelling" = none →
      CatalogSearch.suggestionsOf (CatalogSearch.qParam args) resp = .ok []) := by
  refine ⟨?_, ?_, ?_, ?_, ?_⟩
  · intro h
    show some (CatalogSearch.suggestSpec args) = _
    unfold CatalogSearch.suggestSpec
    rw [if_pos h]
    rfl
  · intro h
    show some (CatalogSearch.suggestSpec args) = _
    unfold CatalogSearch.suggestSpec
    rw [if_neg (by simp [h])]
  · intro h
    unfold CatalogSearch.suggestionsOf
    rw [if_pos h]
  · intro fs hresp hnone
    unfold CatalogSearch.suggestionsOf
    by_cases hq : CatalogSearch.qParam args = ""
    · rw [if_pos hq]
    · rw [if_neg hq]
      subst hresp
      simp [jIn, hnone]
  · intro fs gs hresp hsome hnone
    unfold CatalogSearch.suggestionsOf
    by_cases hq : CatalogSearch.qParam args = ""
    · rw [if_pos hq]
    · rw [if_neg hq]
      subst hresp
      simp [jIn, jGetItem, hsome, hnone]

/-- C9, witness: the misspelled-query scenario with a response that has no
suggestion context. -/
theorem C9_spelling_witness :
    (CatalogSearch.searchBody [("q", "mechancal keybord")]).lookup "suggest" =
      some (J.obj [("spelling", J.obj [
        ("text", J.s (CatalogSearch.qParam [("q", "mechancal keybord")])),
        ("phrase", J.obj [
          ("field", J.s "name"),
          ("size", J.i 3),
          ("gram_size", J.i 3),
          ("direct_generator", J.arr [J.obj [("field", J.s "name"),
            ("suggest_mode", J.s "popular")]])])])]) ∧
    CatalogSearch.suggestionsOf (CatalogSearch.qParam [("q", "mechancal keybord")])
      (J.obj [("hits", J.obj [])]) = .ok [] :=
  ⟨(C9_spelling_suggestion [("q", "mechancal keybord")] (J.obj [("hits", J.obj [])])).1
     (by decide),
   (C9_spelling_suggestion [("q", "mechancal keybord")] (J.obj [("hits", J.obj [])])).2.2.2.1
     [("hits", J.obj [])] rfl rfl⟩

theorem string_take_append_drop (s : String) (n : Nat) : s.take n ++ s.drop n = s := by
  apply String.ext
  rw [String.data_append, String.data_take, String.data_drop]
  exact List.take_append_drop n s.data

theorem isAttrKey_iff (k : String) :
    SearchApi.isAttrKey k = true ↔ k.take 5 = "attr_" := by
  unfold SearchApi.isAttrKey
  exact ⟨of_decide_eq_true, decide_eq_true⟩

theorem isAttrKey_recover (k : String) (h : SearchApi.isAttrKey k = true) :
    "attr_" ++ k.drop 5 = k := by
  rw [← (isAttrKey_iff k).mp h]
  exact string_take_append_drop k 5

theorem isAttrKey_inj (k k' : String) (h : SearchApi.isAttrKey k = true)
    (h' : SearchApi.isAttrKey k' = true) (hd : k.drop 5 = k'.drop 5) : k = k' := by
  rw [← isAttrKey_recover k h, ← isAttrKey_recover k' h', hd]

theorem mem_argsItems_iff (args : Args) (k x : String) :
    (k, x) ∈ argsItems args ↔ getFirst args k = some x := by
  induction args with
  | nil => simp [argsItems, getFirst]
  | cons p rest ih =>
    obtain ⟨k0, v0⟩ := p
    by_cases hk : k0 = k
    · subst hk
      rw [show getFirst ((k0, v0) :: rest) k0 = some v0 from by simp [getFirst]]
      simp only [argsItems, List.mem_cons, List.mem_filter]
      constructor
      · rintro (heq | ⟨_, hfil⟩)
        · rw [Prod.mk.injEq] at heq
          rw [heq.2]
        · simp at hfil
      · intro h
        rw [Option.some_inj] at h
        exact Or.inl (by rw [h])
    · have hg : getFirst ((k0, v0) :: rest) k = getFirst rest k := by simp [getFirst, hk]
      rw [hg, ← ih]
      simp only [argsItems, List.mem_cons, List.mem_filter]
      constructor
      · rintro (heq | ⟨hmem, _⟩)
        · rw [Prod.mk.injEq] at heq
          exact absurd heq.1.symm hk
        · exact hmem
      · intro h
        exact Or.inr ⟨h, by simp [Ne.symm hk]⟩

theorem argsItems_countP_key (args : Args) (k : String)
    (pred : String × String → Bool) (hpred : ∀ p, pred p = true → p.1 = k) :
    (argsItems args).countP pred =
      (match getFirst args k with
       | some v => if pred (k, v) then 1 else 0
       | none => 0) := by
  induction args with
  | nil => simp [argsItems, getFirst]
  | cons p rest ih =>
    obtain ⟨k0, v0⟩ := p
    rw [show argsItems ((k0, v0) :: rest) =
      (k0, v0) :: (argsItems rest).filter (fun q => decide (q.1 ≠ k0)) from rfl]
    rw [List.countP_cons]
    by_cases hk : k0 = k
    · subst hk
      rw [show getFirst ((k0, v0) :: rest) k0 = some v0 from by simp [getFirst]]
      have hz : ((argsItems rest).filter (fun q => decide (q.1 ≠ k0))).countP pred = 0 := by
        rw [List.countP_eq_zero]
        intro a ha hpa
        obtain ⟨_, hfil⟩ := List.mem_filter.mp ha
        rw [hpred a hpa] at hfil
        simp at hfil
      rw [hz]
      simp
    · have hp0 : ¬(pred (k0, v0) = true) := fun hc => hk (hpred _ hc)
      rw [if_neg hp0]
      have hfil : ((argsItems rest).filter (fun q => decide (q.1 ≠ k0))).countP pred =
          (argsItems rest).countP pred := by
        rw [List.countP_filter]
        apply List.countP_congr
        intro a _
        cases hpa : pred a
        · simp
        · have ha1 : a.1 = k := hpred a hpa
          simp [ha1, Ne.symm hk]
      rw [hfil, ih]
      simp [getFirst, hk]

theorem attrPredParts_attrFilter (n v : String) :
    attrPredParts (SearchApi.attrFilter n v) = some (n, v) := rfl

theorem attrPredName_attrFilter (n v : String) :
    attrPredName (SearchApi.attrFilter n v) = some n := rfl

theorem searchApi_nonattr_none (args : Args) (x : J)
    (h : x ∈ SearchApi.categoryFilters args ∨ x ∈ SearchApi.statusFilters args ∨
         x ∈ SearchApi.minPriceFilters args ∨ x ∈ SearchApi.maxPriceFilters args ∨
         x ∈ SearchApi.stockFilters args) :
    attrPredParts x = none := by
  rcases h with h | h | h | h | h
  · obtain ⟨c, rfl⟩ := searchApi_mem_categoryFilters args _ h
    rfl
  · obtain ⟨st, rfl⟩ := searchApi_mem_statusFilters args _ h
    rfl
  · obtain ⟨p, rfl⟩ := searchApi_mem_minPriceFilters args _ h
    rfl
  · obtain ⟨p, rfl⟩ := searchApi_mem_maxPriceFilters args _ h
    rfl
  · rw [(searchApi_mem_stockFilters args _ h).1]
    rfl

theorem searchApi_filters_countP_attr (args : Args) (pred : J → Bool)
    (hnone : ∀ x, attrPredParts x = none → pred x = false) :
    (SearchApi.filters args).countP pred = (SearchApi.attrFilters args).countP pred := by
  unfold SearchApi.filters
  simp only [List.countP_append]
  have hz : ∀ (l : List J), (∀ x ∈ l, attrPredParts x = none) → l.countP pred = 0 := by
    intro l hl
    rw [List.countP_eq_zero]
    intro a ha
    rw [hnone a (hl a ha)]
    simp
  rw [hz _ (fun x hx => searchApi_nonattr_none args x (Or.inl hx)),
    hz _ (fun x hx => searchApi_nonattr_none args x (Or.inr (Or.inl hx))),
    hz _ (fun x hx => searchApi_nonattr_none args x (Or.inr (Or.inr (Or.inl hx)))),
    hz _ (fun x hx => searchApi_nonattr_none args x (Or.inr (Or.inr (Or.inr (Or.inl hx))))),
    hz _ (fun x hx => searchApi_nonattr_none args x (Or.inr (Or.inr (Or.inr (Or.inr hx)))))]
  omega

theorem searchApi_attrFilters_countP (args : Args) (pred : J → Bool) :
    (SearchApi.attrFilters args).countP pred =
      (argsItems args).countP (fun p => SearchApi.isAttrKey p.1 &&
        pred (SearchApi.attrFilter (p.1.drop 5) p.2)) := by
  unfold SearchApi.attrFilters
  rw [List.countP_filterMap]
  apply List.countP_congr
  intro p _
  by_cases hk : SearchApi.isAttrKey p.1 = true <;> simp [hk]

theorem searchApi_attrFilter_mem_filters (args : Args) (k v : String)
    (hk : SearchApi.isAttrKey k = true) (hv : getFirst args k = some v) :
    SearchApi.attrFilter (k.drop 5) v ∈ SearchApi.filters args := by
  unfold SearchApi.filters
  simp only [List.mem_append]
  refine Or.inr ?_
  unfold SearchApi.attrFilters
  refine List.mem_filterMap.mpr ⟨(k, v), (mem_argsItems_iff args k v).mpr hv, ?_⟩
  rw [if_pos hk]

/-- C7: for a request carrying a parameter `attr_<name>=<value>` (the
key's first value in the multidict), the filter list of
`search_api.search` contains the nested attribute predicate pairing that
name and value inside a single `attributes` record, and it contains
exactly one predicate with that exact name/value pairing. -/
theorem C7_attr_nested_pairing (args : Args) (k v : String)
    (hk : SearchApi.isAttrKey k = true) (hv : getFirst args k = some v) :
    SearchApi.attrFilter (k.drop 5) v ∈ SearchApi.filters args ∧
    (SearchApi.filters args).countP
      (fun x => attrPredParts x == some (k.drop 5, v)) = 1 := by
  refine ⟨searchApi_attrFilter_mem_filters args k v hk hv, ?_⟩
  rw [searchApi_filters_countP_attr args _ (fun x hx => by simp [hx]),
    searchApi_attrFilters_countP,
    argsItems_countP_key args k _ ?hpred]
  · rw [hv]
    simp [hk, attrPredParts_attrFilter]
  case hpred =>
    intro p hp
    simp only [Bool.and_eq_true, beq_iff_eq, attrPredParts_attrFilter,
      Option.some_inj, Prod.mk.injEq] at hp
    obtain ⟨hpk, hd, _⟩ := hp
    exact isAttrKey_inj p.1 k hpk hk hd

/-- C7, witness: the `attr_color=Black` scenario. -/
theorem C7_attr_witness :
    SearchApi.attrFilter ("attr_color".drop 5) "Black" ∈
      SearchApi.filters [("attr_color", "Black")] ∧
    (SearchApi.filters [("attr_color", "Black")]).countP
      (fun x => attrPredParts x == some ("attr_color".drop 5, "Black")) = 1 ∧
    "attr_color".drop 5 = "color" :=
  ⟨(C7_attr_nested_pairing [("attr_color", "Black")] "attr_color" "Black"
      (by decide) (by decide)).1,
   (C7_attr_nested_pairing [("attr_color", "Black")] "attr_color" "Black"
      (by decide) (by decide)).2,
   by decide⟩

/-- C10: when an `attr_<name>` parameter is repeated, only its first value
is used: the filter list holds the nested predicate built from the first
value, exactly one nested attribute predicate carries that name, and no
predicate is built from any further value of the repeated key. -/
theorem C10_repeated_attr_first_value (args : Args) (k v1 v2 : String)
    (hk : SearchApi.isAttrKey k = true) (h1 : getFirst args k = some v1)
    (h2 : v2 ≠ v1) :
    SearchApi.attrFilter (k.drop 5) v1 ∈ SearchApi.filters args ∧
    (SearchApi.filters args).countP
      (fun x => attrPredName x == some (k.drop 5)) = 1 ∧
    SearchApi.attrFilter (k.drop 5) v2 ∉ SearchApi.filters args := by
  refine ⟨searchApi_attrFilter_mem_filters args k v1 hk h1, ?_, ?_⟩
  · rw [searchApi_filters_countP_attr args _
      (fun x hx => by simp [attrPredName, hx]),
      searchApi_attrFilters_countP,
      argsItems_countP_key args k _ ?hpred]
    · rw [h1]
      simp [hk, attrPredName_attrFilter]
    case hpred =>
      intro p hp
      simp only [Bool.and_eq_true, beq_iff_eq, attrPredName_attrFilter,
        Option.some_inj] at hp
      obtain ⟨hpk, hd⟩ := hp
      exact isAttrKey_inj p.1 k hpk hk hd
  · intro hmem
    unfold SearchApi.filters at hmem
    simp only [List.mem_append] at hmem
    rcases hmem with ((((h | h) | h) | h) | h) | h
    · obtain ⟨c, hc⟩ := searchApi_mem_categoryFilters args _ h
      simp [SearchApi.attrFilter] at hc
    · obtain ⟨st, hc⟩ := searchApi_mem_statusFilters args _ h
      simp [SearchApi.attrFilter] at hc
    · obtain ⟨p, hc⟩ := searchApi_mem_minPriceFilters args _ h
      simp [SearchApi.attrFilter] at hc
    · obtain ⟨p, hc⟩ := searchApi_mem_maxPriceFilters args _ h
      simp [SearchApi.attrFilter] at hc
    · have hc := (searchApi_mem_stockFilters args _ h).1
      simp [SearchApi.attrFilter, SearchApi.stockFilter] at hc
    · obtain ⟨p, hpmem, hpk, hpe⟩ := searchApi_mem_attrFilters args _ h
      have hparts := congrArg attrPredParts hpe
      rw [attrPredParts_attrFilter, attrPredParts_attrFilter] at hparts
      simp only [Option.some_inj, Prod.mk.injEq] at hparts
      obtain ⟨hd, hval⟩ := hparts
      have hpk_eq : p.1 = k := isAttrKey_inj p.1 k hpk hk hd.symm
      have hmem2 : (k, p.2) ∈ argsItems args := by
        rw [← hpk_eq]
        exact hpmem
      have := (mem_argsItems_iff args k p.2).mp hmem2
      rw [h1] at this
      rw [Option.some_inj] at this
      exact h2 (by rw [hval, ← this])

/-- C10, witness: `attr_color` given twice uses only the first value. -/
theorem C10_repeated_attr_witness :
    SearchApi.attrFilter ("attr_color".drop 5) "Black" ∈
      SearchApi.filters [("attr_color", "Black"), ("attr_color", "White")] ∧
    (SearchApi.filters [("attr_color", "Black"), ("attr_color", "White")]).countP
      (fun x => attrPredName x == some ("attr_color".drop 5)) = 1 ∧
    SearchApi.attrFilter ("attr_color".drop 5) "White" ∉
      SearchApi.filters [("attr_color", "Black"), ("attr_color", "White")] :=
  C10_repeated_attr_first_value [("attr_color", "Black"), ("attr_color", "White")]
    "attr_color" "Black" "White" (by decide) (by decide) (by decide)
